import Mathlib

/-!
Shallow embedding of the BingX webhook trading bot (`app.py`).

Modelling conventions:

* Quantities, prices, signed position amounts and times are rationals (the
  Python code computes with floats and `time.time()`; the claims under study
  are about exact decimal arithmetic and 10-second windows, so the rational
  idealisation is faithful for them).
* The remote exchange is modelled by an `Exchange` record giving the response
  each REST call would receive during one `execute_trade` attempt.  `none`
  for the price or the positions query stands for a failed call (HTTP
  exception, JSON error, or a non-zero BingX response code) — exactly the
  cases where the Python helpers return `None`.
* Position-mode detection (`detect_position_mode` plus its 5-minute cache) is
  collapsed into the ambient `Exchange.mode` field; its read-only positions
  query is not recorded in the call trace.  No claim depends on mode
  detection; the mode only chooses the `positionSide` string on orders.
* All `time.time()` reads inside a single `execute_trade` call are modelled
  as the same instant `now` (the `time.sleep` delays are not observable in
  the claims).
* Each function returns, besides its result, the list of exchange REST calls
  it performed (`ExCall`), so that claims about "no order submitted" or
  "zero exchange calls" are statements about this trace.
-/

namespace Automation

/-- Direction of an open position as reported by the exchange
(`"LONG"`/`"SHORT"` strings in `get_current_position`). -/
inductive Side
  | LONG
  | SHORT
  deriving DecidableEq

/-- Order side of an incoming webhook signal (`"BUY"`/`"SELL"`). -/
inductive Action
  | BUY
  | SELL
  deriving DecidableEq

/-- Position mode detected by `detect_position_mode`. -/
inductive Mode
  | HEDGE
  | ONE_WAY
  deriving DecidableEq

/-- One entry of `TradeTracker.active_trades`:
`{'side': side, 'quantity': quantity, 'timestamp': time.time()}`. -/
structure TradeInfo where
  side : Action
  quantity : ℚ
  timestamp : ℚ
  deriving DecidableEq

/-- The mutable state of `TradeTracker` relevant to trading decisions: the
`active_trades` dict, modelled as an association list from symbol to
`TradeInfo` (lookup takes the most recent binding, mirroring dict
assignment).  The `threading.Lock` only guards individual dict reads/writes
and is invisible in this sequential model; the `mode_cache` is collapsed
into `Exchange.mode`. -/
structure TrackerState where
  active_trades : List (String × TradeInfo)
  deriving DecidableEq

/-- `TradeTracker.can_trade`: the last trade time for the symbol defaults to
0 when the symbol is absent; returns `False` while `now - last < 10`
(the 10-second cooldown), `True` otherwise. -/
def can_trade (s : TrackerState) (symbol : String) (now : ℚ) : Bool :=
  let last_trade_time := ((s.active_trades.lookup symbol).map TradeInfo.timestamp).getD 0
  if now - last_trade_time < 10 then false else true

/-- `TradeTracker.mark_trade`: record the executed trade for the symbol at
time `now` (dict assignment = shadowing cons in the association list). -/
def mark_trade (s : TrackerState) (symbol : String) (side : Action) (quantity : ℚ)
    (now : ℚ) : TrackerState :=
  ⟨(symbol, ⟨side, quantity, now⟩) :: s.active_trades⟩

/-- One REST call to the BingX API, as issued by the bot. -/
inductive ExCall
  | setLeverage (symbol : String) (leverage : ℕ)
  | getPositions (symbol : String)
  | getPrice (symbol : String)
  | submitClose (symbol : String) (closeSide : Action) (positionSide : String) (quantity : ℚ)
  | submitOpen (symbol : String) (side : Action) (positionSide : String) (quantity : ℚ)
  deriving DecidableEq

/-- The responses the exchange gives to the calls one `execute_trade` attempt
can make.  `price = none`: `get_current_price` failed (exception or non-zero
code).  `positions = none`: the positions query in `get_current_position`
failed; `positions = some amts`: it returned rows with these signed
`positionAmt` values.  `closeAccepted`/`openAccepted`: whether the close/open
order POST returns code 0. -/
structure Exchange where
  price : Option ℚ
  positions : Option (List ℚ)
  mode : Mode
  closeAccepted : Bool
  openAccepted : Bool

/-- The scan inside `get_current_position`: return the first row whose
`positionAmt` is non-zero as `(side, |amt|)` with side `LONG` iff the signed
amount is positive; all-zero rows fall through to `None`. -/
def firstPosition : List ℚ → Option (Side × ℚ)
  | [] => none
  | amt :: rest =>
      if amt ≠ 0 then some (if 0 < amt then Side.LONG else Side.SHORT, |amt|)
      else firstPosition rest

/-- `get_current_position`: a failed query (exception or non-zero code)
returns `None`, indistinguishable from a flat account; otherwise scan the
rows for the first non-zero `positionAmt`. -/
def get_current_position (ex : Exchange) : Option (Side × ℚ) :=
  match ex.positions with
  | none => none
  | some amts => firstPosition amts

/-- Python `round` to an integer: round half to even (banker's rounding),
the documented semantics of `round` on the exact value. -/
def roundHalfEven (x : ℚ) : ℤ :=
  let n := ⌊x⌋
  if x - n < 1/2 then n
  else if (1 : ℚ)/2 < x - n then n + 1
  else if n % 2 = 0 then n else n + 1

/-- `round(x, 4)` as used in `open_position`. -/
def pyRound4 (x : ℚ) : ℚ :=
  (roundHalfEven (x * 10000) : ℚ) / 10000

/-- The quantity computation in `open_position`:
`usdt_value = TRADE_BALANCE * 3; quantity = round(usdt_value / price, 4)`. -/
def computeQuantity (bal price : ℚ) : ℚ :=
  pyRound4 (bal * 3 / price)

/-- The `positionSide` parameter chosen by `open_position`. -/
def positionSideForOpen (mode : Mode) (action : Action) : String :=
  match mode with
  | Mode.HEDGE => if action = Action.BUY then "LONG" else "SHORT"
  | Mode.ONE_WAY => "BOTH"

/-- The `positionSide` parameter chosen by `close_position`. -/
def positionSideForClose (mode : Mode) (side : Side) : String :=
  match mode with
  | Mode.HEDGE => if side = Side.LONG then "LONG" else "SHORT"
  | Mode.ONE_WAY => "BOTH"

/-- `open_position symbol action`: fetch the price (abort returning `False`
on a failed fetch, and likewise when the price is `0.0`, since Python's
`if not current_price` treats `0.0` as falsy — but no other value is
rejected); compute the 3× quantity rounded to 4 decimals; submit a MARKET
order; on success (`code == 0`) call `mark_trade` and return `True`.
Returns (success flag, tracker state, REST calls made). -/
def open_position (bal : ℚ) (ex : Exchange) (s : TrackerState) (symbol : String)
    (action : Action) (now : ℚ) : Bool × TrackerState × List ExCall :=
  match ex.price with
  | none => (false, s, [ExCall.getPrice symbol])
  | some current_price =>
      if current_price = 0 then (false, s, [ExCall.getPrice symbol])
      else
        let quantity := computeQuantity bal current_price
        let ps := positionSideForOpen ex.mode action
        let calls := [ExCall.getPrice symbol, ExCall.submitOpen symbol action ps quantity]
        if ex.openAccepted then
          (true, mark_trade s symbol action quantity now, calls)
        else
          (false, s, calls)

/-- `close_position symbol side quantity`: submit a MARKET order on the
opposite side for the given quantity; returns whether the exchange accepted
it (`code == 0`), plus the REST call made. -/
def close_position (ex : Exchange) (symbol : String) (side : Side) (quantity : ℚ) :
    Bool × List ExCall :=
  let close_side := if side = Side.LONG then Action.SELL else Action.BUY
  (ex.closeAccepted, [ExCall.submitClose symbol close_side (positionSideForClose ex.mode side) quantity])

/-- `set_leverage`: always reports success (exceptions aside); one REST call
in the model (two in HEDGE mode in the source, collapsed to one trace
entry — no claim counts leverage calls). -/
def set_leverage (symbol : String) (leverage : ℕ) : Bool × List ExCall :=
  (true, [ExCall.setLeverage symbol leverage])

/-- The outcomes `execute_trade` can return in its JSON body. -/
inductive TradeStatus
  | skipped_cooldown
  | close_failed
  | success
  | failed
  deriving DecidableEq

/-- STEP 3 of `execute_trade`: decide whether to close the existing
position.  Note both the conflicting-direction branch and the
same-direction branch ("closing first then reopening") set it to `True`. -/
def need_to_close (action : Action) (current_side : Side) : Bool :=
  if (action = Action.BUY ∧ current_side = Side.SHORT) ∨
     (action = Action.SELL ∧ current_side = Side.LONG) then true
  else if (action = Action.BUY ∧ current_side = Side.LONG) ∨
          (action = Action.SELL ∧ current_side = Side.SHORT) then true
  else false

/-- `execute_trade symbol action endpoint_name`: cooldown gate, then
set leverage, read position, close if needed (abort with status
`failed`/`close_position_failed` when the close is rejected), then open.
Returns (status, tracker state, REST calls made). -/
def execute_trade (bal : ℚ) (ex : Exchange) (s : TrackerState) (symbol : String)
    (action : Action) (now : ℚ) : TradeStatus × TrackerState × List ExCall :=
  if can_trade s symbol now = false then
    (TradeStatus.skipped_cooldown, s, [])
  else
    let calls0 := (set_leverage symbol 10).2 ++ [ExCall.getPositions symbol]
    match get_current_position ex with
    | some (current_side, current_qty) =>
        if need_to_close action current_side then
          let cp := close_position ex symbol current_side current_qty
          if cp.1 then
            let op := open_position bal ex s symbol action now
            ((if op.1 then TradeStatus.success else TradeStatus.failed),
              op.2.1, calls0 ++ cp.2 ++ op.2.2)
          else
            (TradeStatus.close_failed, s, calls0 ++ cp.2)
        else
          let op := open_position bal ex s symbol action now
          ((if op.1 then TradeStatus.success else TradeStatus.failed),
            op.2.1, calls0 ++ op.2.2)
    | none =>
        let op := open_position bal ex s symbol action now
        ((if op.1 then TradeStatus.success else TradeStatus.failed),
          op.2.1, calls0 ++ op.2.2)

/-- Trace classifiers, to state which REST calls an attempt performed. -/
def isSubmitOpen : ExCall → Bool
  | ExCall.submitOpen _ _ _ _ => true
  | _ => false

def isSubmitClose : ExCall → Bool
  | ExCall.submitClose _ _ _ _ => true
  | _ => false

def isGetPositions : ExCall → Bool
  | ExCall.getPositions _ => true
  | _ => false

def isGetPrice : ExCall → Bool
  | ExCall.getPrice _ => true
  | _ => false

/-- The incoming action conflicts with the existing position's side. -/
def conflicts (action : Action) (side : Side) : Prop :=
  (action = Action.BUY ∧ side = Side.SHORT) ∨ (action = Action.SELL ∧ side = Side.LONG)

/-- The incoming action targets the direction the position already has. -/
def sameDirection (action : Action) (side : Side) : Prop :=
  (action = Action.BUY ∧ side = Side.LONG) ∨ (action = Action.SELL ∧ side = Side.SHORT)

/-- Modelled from the spec (§4.2 SizingPolicy): `notional = risk_budget *
leverage`, `quantity = notional / price`, rounded **half down** to the
configured number of decimal places (4, matching the code's precision).
Present only to compare the spec's rounding rule with the code's. -/
def roundHalfDown (x : ℚ) : ℤ :=
  let n := ⌊x⌋
  if (1 : ℚ)/2 < x - n then n + 1 else n

/-- Modelled from the spec: `ComputeQuantity(risk_budget, leverage, price)`
with the spec's round-half-down rule at 4 decimal places. -/
def ComputeQuantitySpec (budget leverage price : ℚ) : ℚ :=
  (roundHalfDown (budget * leverage / price * 10000) : ℚ) / 10000

example : computeQuantity 10 5 = 6 := by
  norm_num [computeQuantity, pyRound4, roundHalfEven]

example : need_to_close Action.BUY Side.LONG = true := by decide

/-! ### Helper lemmas -/

/-- Both the conflicting-side and the same-side branch of STEP 3 decide to
close: `need_to_close` is constantly `true`. -/
theorem need_to_close_always (a : Action) (cs : Side) : need_to_close a cs = true := by
  cases a <;> cases cs <;> decide

/-- What `firstPosition` returns always comes from a non-zero row of the
scanned list, with the side determined by the sign and the quantity by the
absolute value. -/
theorem firstPosition_spec (amts : List ℚ) (side : Side) (q : ℚ)
    (h : firstPosition amts = some (side, q)) :
    0 < q ∧ ∃ a ∈ amts, a ≠ 0 ∧ q = |a| ∧
      (side = Side.LONG ↔ 0 < a) ∧ (side = Side.SHORT ↔ a < 0) := by
  induction amts with
  | nil => simp [firstPosition] at h
  | cons amt rest ih =>
      rw [firstPosition] at h
      by_cases h0 : amt = 0
      · simp [h0] at h
        obtain ⟨hq, a, ha, spec⟩ := ih h
        exact ⟨hq, a, List.mem_cons_of_mem _ ha, spec⟩
      · simp [h0] at h
        obtain ⟨hside, hq⟩ := h
        rcases lt_or_gt_of_ne h0 with hneg | hpos
        · have hs : side = Side.SHORT := by
            rw [← hside]; simp [not_lt.mpr hneg.le]
          refine ⟨?_, amt, List.mem_cons_self _ _, h0, hq.symm, ?_, ?_⟩
          · rw [← hq]; exact abs_pos.mpr h0
          · constructor
            · intro hL; rw [hs] at hL; cases hL
            · intro hgt; exact absurd hgt (not_lt.mpr hneg.le)
          · exact iff_of_true hs hneg
        · have hs : side = Side.LONG := by rw [← hside]; simp [hpos]
          refine ⟨?_, amt, List.mem_cons_self _ _, h0, hq.symm, ?_, ?_⟩
          · rw [← hq]; exact abs_pos.mpr h0
          · exact iff_of_true hs hpos
          · constructor
            · intro hS; rw [hs] at hS; cases hS
            · intro hlt; exact absurd hlt (not_lt.mpr hpos.le)

/-- A list of all-zero position rows yields no position. -/
theorem firstPosition_all_zero (amts : List ℚ) (h : ∀ a ∈ amts, a = 0) :
    firstPosition amts = none := by
  induction amts with
  | nil => rfl
  | cons amt rest ih =>
      rw [firstPosition]
      have h0 : amt = 0 := h amt (List.mem_cons_self _ _)
      rw [if_neg (by simp [h0])]
      exact ih fun a ha => h a (List.mem_cons_of_mem _ ha)

/-- C9: whenever `get_current_position` returns a non-`None` view, its
quantity is strictly positive and its side is `LONG` exactly when the
underlying signed `positionAmt` is positive (`SHORT` when negative); and
rows that are all zero are reported as no position (`None`). -/
theorem position_view_invariant (ex : Exchange) :
    (∀ side q, get_current_position ex = some (side, q) →
      0 < q ∧ ∃ amts, ex.positions = some amts ∧ ∃ a ∈ amts, a ≠ 0 ∧ q = |a| ∧
        (side = Side.LONG ↔ 0 < a) ∧ (side = Side.SHORT ↔ a < 0)) ∧
    (∀ amts, ex.positions = some amts → (∀ a ∈ amts, a = 0) →
      get_current_position ex = none) := by
  constructor
  · intro side q h
    rw [get_current_position] at h
    match hp : ex.positions with
    | none => rw [hp] at h; cases h
    | some amts =>
        rw [hp] at h
        obtain ⟨hq, a, ha, spec⟩ := firstPosition_spec amts side q h
        exact ⟨hq, amts, rfl, a, ha, spec⟩
  · intro amts hp hz
    rw [get_current_position, hp]
    exact firstPosition_all_zero amts hz

/-- Witness for C9 at a concrete exchange response: rows `[0, -2]` are
reported as a `SHORT` position of quantity 2, which the invariant confirms
is strictly positive. -/
theorem position_view_invariant_witness :
    get_current_position ⟨some 5, some [0, -2], Mode.ONE_WAY, true, true⟩ =
      some (Side.SHORT, 2) ∧ 0 < (2 : ℚ) := by
  have hview : get_current_position ⟨some 5, some [0, -2], Mode.ONE_WAY, true, true⟩ =
      some (Side.SHORT, 2) := by
    show firstPosition [0, -2] = some (Side.SHORT, 2)
    rw [firstPosition.eq_def]
    norm_num
    rw [firstPosition.eq_def]
    norm_num
  have h := (position_view_invariant ⟨some 5, some [0, -2], Mode.ONE_WAY, true, true⟩).1
    Side.SHORT 2 hview
  exact ⟨hview, h.1⟩

/-! ### Cooldown gate lemmas -/

/-- After `mark_trade`, looking the symbol up in the tracker finds the
just-recorded entry. -/
theorem lookup_mark_trade (s : TrackerState) (sym : String) (a : Action) (q t : ℚ) :
    (mark_trade s sym a q t).active_trades.lookup sym = some ⟨a, q, t⟩ := by
  simp [mark_trade, List.lookup]

/-- Within 10 seconds of a recorded trade on a symbol, `can_trade` refuses,
whatever the recorded or incoming direction. -/
theorem can_trade_within_cooldown (s : TrackerState) (sym : String) (a : Action)
    (q t now : ℚ) (h : now - t < 10) :
    can_trade (mark_trade s sym a q t) sym now = false := by
  simp [can_trade, lookup_mark_trade, h]

/-- When the cooldown gate refuses, `execute_trade` returns the skipped
outcome with the tracker untouched and an empty call trace. -/
theorem execute_trade_skips (bal : ℚ) (ex : Exchange) (s : TrackerState)
    (sym : String) (a : Action) (now : ℚ) (h : can_trade s sym now = false) :
    execute_trade bal ex s sym a now = (TradeStatus.skipped_cooldown, s, []) := by
  simp [execute_trade, h]

/-- A successful `open_position` records the trade via `mark_trade` at the
attempt's time. -/
theorem open_position_marks (bal : ℚ) (ex : Exchange) (s : TrackerState) (sym : String)
    (a : Action) (now : ℚ) (h : (open_position bal ex s sym a now).1 = true) :
    ∃ q, (open_position bal ex s sym a now).2.1 = mark_trade s sym a q now := by
  rcases hp : ex.price with _ | p
  · simp [open_position, hp] at h
  · by_cases h0 : p = 0
    · simp [open_position, hp, h0] at h
    · by_cases ho : ex.openAccepted
      · exact ⟨computeQuantity bal p, by simp [open_position, hp, h0, ho]⟩
      · simp [open_position, hp, h0, ho] at h

/-- A successful `execute_trade` leaves the tracker with the trade recorded
for its symbol at the attempt's time. -/
theorem execute_trade_success_marks (bal : ℚ) (ex : Exchange) (s : TrackerState)
    (sym : String) (a : Action) (now : ℚ)
    (h : (execute_trade bal ex s sym a now).1 = TradeStatus.success) :
    ∃ q, (execute_trade bal ex s sym a now).2.1 = mark_trade s sym a q now := by
  by_cases hc : can_trade s sym now = false
  · rw [execute_trade_skips bal ex s sym a now hc] at h; cases h
  · rcases hgp : get_current_position ex with _ | ⟨side, qty⟩
    · simp only [execute_trade, if_neg hc, hgp] at h ⊢
      by_cases hop : (open_position bal ex s sym a now).1 = true
      · simpa [hop] using open_position_marks bal ex s sym a now hop
      · simp [hop] at h
    · simp only [execute_trade, if_neg hc, hgp, need_to_close_always, if_pos] at h ⊢
      by_cases hcl : (close_position ex sym side qty).1 = true
      · simp only [hcl, if_pos] at h ⊢
        by_cases hop : (open_position bal ex s sym a now).1 = true
        · simpa [hop] using open_position_marks bal ex s sym a now hop
        · simp [hop] at h
      · simp [hcl] at h

/-- C5: if a call completed successfully, a second call for the same symbol
and direction within the 10-second duplicate-suppression window is skipped:
it returns the skipped outcome, leaves the tracker unchanged, and issues
zero exchange calls, so only the first call's exchange-mutating sequence
occurs. -/
theorem duplicate_suppression_second_call_skipped (bal bal2 : ℚ) (ex ex2 : Exchange)
    (s : TrackerState) (sym : String) (a : Action) (t1 t2 : ℚ)
    (h1 : (execute_trade bal ex s sym a t1).1 = TradeStatus.success)
    (h2 : t2 - t1 < 10) :
    execute_trade bal2 ex2 (execute_trade bal ex s sym a t1).2.1 sym a t2 =
      (TradeStatus.skipped_cooldown, (execute_trade bal ex s sym a t1).2.1, []) := by
  obtain ⟨q, hq⟩ := execute_trade_success_marks bal ex s sym a t1 h1
  rw [hq]
  exact execute_trade_skips _ _ _ _ _ _ (can_trade_within_cooldown _ _ _ _ _ _ h2)

/-- Witness for C5: a flat account, price 5, both orders accepted; the call
at t=100 succeeds and the identical call at t=105 is skipped with no calls. -/
theorem duplicate_suppression_second_call_skipped_witness :
    (execute_trade 50 ⟨some 5, some [], Mode.ONE_WAY, true, true⟩ ⟨[]⟩
        "SUI-USDT" Action.BUY 100).1 = TradeStatus.success ∧
    (100 : ℚ) ≤ 105 ∧ (105 : ℚ) - 100 < 10 ∧
    execute_trade 50 ⟨some 5, some [], Mode.ONE_WAY, true, true⟩
        (execute_trade 50 ⟨some 5, some [], Mode.ONE_WAY, true, true⟩ ⟨[]⟩
          "SUI-USDT" Action.BUY 100).2.1 "SUI-USDT" Action.BUY 105 =
      (TradeStatus.skipped_cooldown,
        (execute_trade 50 ⟨some 5, some [], Mode.ONE_WAY, true, true⟩ ⟨[]⟩
          "SUI-USDT" Action.BUY 100).2.1, []) := by
  have h1 : (execute_trade 50 ⟨some 5, some [], Mode.ONE_WAY, true, true⟩ ⟨[]⟩
      "SUI-USDT" Action.BUY 100).1 = TradeStatus.success := by
    norm_num [execute_trade, can_trade, get_current_position, firstPosition,
      open_position, List.lookup]
  refine ⟨h1, by norm_num, by norm_num, ?_⟩
  exact duplicate_suppression_second_call_skipped 50 50 _ _ _ _ _ 100 105 h1 (by norm_num)

/-- C10: the cooldown is keyed by symbol only — after a trade recorded on a
symbol at time `t`, every signal for that symbol arriving at `now` with
`now - t < 10` is skipped with zero exchange calls, whatever its direction
(`a` is arbitrary, so this covers a reversal of the recorded `prev`). -/
theorem cooldown_keyed_by_symbol_only (bal : ℚ) (ex : Exchange) (s : TrackerState)
    (sym : String) (prev a : Action) (q t now : ℚ) (h : now - t < 10) :
    execute_trade bal ex (mark_trade s sym prev q t) sym a now =
      (TradeStatus.skipped_cooldown, mark_trade s sym prev q t, []) :=
  execute_trade_skips _ _ _ _ _ _ (can_trade_within_cooldown _ _ _ _ _ _ h)

/-- Witness for C10: a BUY recorded at t=100 makes even a SELL reversal at
t=105 skip with no exchange calls. -/
theorem cooldown_keyed_by_symbol_only_witness :
    (105 : ℚ) - 100 < 10 ∧
    execute_trade 50 ⟨some 5, some [], Mode.ONE_WAY, true, true⟩
        (mark_trade ⟨[]⟩ "SUI-USDT" Action.BUY 30 100) "SUI-USDT" Action.SELL 105 =
      (TradeStatus.skipped_cooldown, mark_trade ⟨[]⟩ "SUI-USDT" Action.BUY 30 100, []) :=
  ⟨by norm_num,
    cooldown_keyed_by_symbol_only 50 ⟨some 5, some [], Mode.ONE_WAY, true, true⟩
      ⟨[]⟩ "SUI-USDT" Action.BUY Action.SELL 30 100 105 (by norm_num)⟩

/-! ### Reconciliation-path theorems (C1–C4) -/

/-- C1 counterexample: the positions query fails (`positions = none`, the
`except`/non-zero-code path of `get_current_position`), the price is 5 and
the open order is accepted.  The claim says this attempt returns
`ABORTED(position_unreadable)` and submits no order; instead `execute_trade`
returns `success` and submits the open order — the unreadable position was
treated as a flat account. -/
theorem position_unreadable_not_aborted_cex :
    (execute_trade 50 ⟨some 5, none, Mode.ONE_WAY, true, true⟩ ⟨[]⟩
        "BTC-USDT" Action.BUY 100).1 = TradeStatus.success ∧
    (execute_trade 50 ⟨some 5, none, Mode.ONE_WAY, true, true⟩ ⟨[]⟩
        "BTC-USDT" Action.BUY 100).2.2.filter isSubmitOpen =
      [ExCall.submitOpen "BTC-USDT" Action.BUY "BOTH" 30] := by
  norm_num [execute_trade, can_trade, get_current_position, open_position,
    computeQuantity, pyRound4, roundHalfEven, positionSideForOpen, List.lookup,
    set_leverage, isSubmitOpen]

/-- C1 amended: when the position read fails, `get_current_position` returns
`None` and `execute_trade` proceeds exactly as if the account were flat — it
submits no close order, submits the open order (price available and
non-zero), and returns success or failed according to the open-order
response; no aborted outcome exists for an unreadable position. -/
theorem unreadable_position_treated_as_flat (bal : ℚ) (ex : Exchange) (s : TrackerState)
    (sym : String) (a : Action) (now p : ℚ)
    (hgate : can_trade s sym now = true)
    (hpos : ex.positions = none)
    (hp : ex.price = some p) (h0 : p ≠ 0) :
    (execute_trade bal ex s sym a now).2.2.filter isSubmitClose = [] ∧
    (execute_trade bal ex s sym a now).2.2.filter isSubmitOpen =
      [ExCall.submitOpen sym a (positionSideForOpen ex.mode a) (computeQuantity bal p)] ∧
    (execute_trade bal ex s sym a now).1 =
      (if ex.openAccepted then TradeStatus.success else TradeStatus.failed) := by
  have hgp : get_current_position ex = none := by simp [get_current_position, hpos]
  have hc : ¬ can_trade s sym now = false := by simp [hgate]
  by_cases ho : ex.openAccepted <;>
    simp [execute_trade, if_neg hc, hgp, open_position, hp, h0, ho, set_leverage,
      isSubmitClose, isSubmitOpen]

/-- Witness for the amended C1: failing positions query, price 10, rejected
open order — no close order, one open order, outcome `failed`. -/
theorem unreadable_position_treated_as_flat_witness :
    can_trade ⟨[]⟩ "ETH-USDT" 100 = true ∧
    (execute_trade 50 ⟨some 10, none, Mode.ONE_WAY, true, false⟩ ⟨[]⟩
        "ETH-USDT" Action.SELL 100).2.2.filter isSubmitClose = [] ∧
    (execute_trade 50 ⟨some 10, none, Mode.ONE_WAY, true, false⟩ ⟨[]⟩
        "ETH-USDT" Action.SELL 100).2.2.filter isSubmitOpen =
      [ExCall.submitOpen "ETH-USDT" Action.SELL
        (positionSideForOpen Mode.ONE_WAY Action.SELL) (computeQuantity 50 10)] ∧
    (execute_trade 50 ⟨some 10, none, Mode.ONE_WAY, true, false⟩ ⟨[]⟩
        "ETH-USDT" Action.SELL 100).1 = TradeStatus.failed := by
  have hgate : can_trade ⟨[]⟩ "ETH-USDT" 100 = true := by
    norm_num [can_trade, List.lookup]
  have h := unreadable_position_treated_as_flat 50
    ⟨some 10, none, Mode.ONE_WAY, true, false⟩ ⟨[]⟩ "ETH-USDT" Action.SELL 100 10
    hgate rfl rfl (by norm_num)
  exact ⟨hgate, h.1, h.2.1, h.2.2⟩

/-- C2: with an existing position whose side conflicts with the signal, a
rejected close-order submission makes `execute_trade` return the
failed/`close_position_failed` outcome with the tracker unchanged, and the
open step is never reached: no open order and not even the open step's
price fetch appear in the trace. -/
theorem close_failure_aborts_before_open (bal : ℚ) (ex : Exchange) (s : TrackerState)
    (sym : String) (a : Action) (now : ℚ) (side : Side) (q : ℚ)
    (hgate : can_trade s sym now = true)
    (hpos : get_current_position ex = some (side, q))
    (hconf : conflicts a side)
    (hclose : ex.closeAccepted = false) :
    (execute_trade bal ex s sym a now).1 = TradeStatus.close_failed ∧
    (execute_trade bal ex s sym a now).2.1 = s ∧
    (execute_trade bal ex s sym a now).2.2.filter isSubmitOpen = [] ∧
    (execute_trade bal ex s sym a now).2.2.filter isGetPrice = [] := by
  have hc : ¬ can_trade s sym now = false := by simp [hgate]
  simp [execute_trade, if_neg hc, hpos, need_to_close_always, close_position,
    hclose, set_leverage, isSubmitOpen, isGetPrice]

/-- Witness for C2: SHORT position of 2, BUY signal, close order rejected —
outcome `close_failed`, tracker unchanged, no open order, no price fetch. -/
theorem close_failure_aborts_before_open_witness :
    can_trade ⟨[]⟩ "BTC-USDT" 100 = true ∧
    get_current_position ⟨some 5, some [-2], Mode.ONE_WAY, false, true⟩ =
      some (Side.SHORT, 2) ∧
    (execute_trade 50 ⟨some 5, some [-2], Mode.ONE_WAY, false, true⟩ ⟨[]⟩
        "BTC-USDT" Action.BUY 100).1 = TradeStatus.close_failed ∧
    (execute_trade 50 ⟨some 5, some [-2], Mode.ONE_WAY, false, true⟩ ⟨[]⟩
        "BTC-USDT" Action.BUY 100).2.2.filter isSubmitOpen = [] := by
  have hgate : can_trade ⟨[]⟩ "BTC-USDT" 100 = true := by
    norm_num [can_trade, List.lookup]
  have hpos : get_current_position ⟨some 5, some [-2], Mode.ONE_WAY, false, true⟩ =
      some (Side.SHORT, 2) := by
    show firstPosition [-2] = some (Side.SHORT, 2)
    rw [firstPosition.eq_def]
    norm_num
  have h := close_failure_aborts_before_open 50
    ⟨some 5, some [-2], Mode.ONE_WAY, false, true⟩ ⟨[]⟩ "BTC-USDT" Action.BUY 100
    Side.SHORT 2 hgate hpos (Or.inl ⟨rfl, rfl⟩) rfl
  exact ⟨hgate, hpos, h.1, h.2.2.1⟩

/-- C3 counterexample: the account is already LONG 2 and the signal is BUY
(same direction).  The claim says the reconciliation is a no-op on the
exchange — no close and no open order.  Instead `execute_trade` takes the
"closing first then reopening" branch: it submits a close order for the
already-correct position and then an open order. -/
theorem same_direction_not_noop_cex :
    (execute_trade 50 ⟨some 5, some [2], Mode.ONE_WAY, true, true⟩ ⟨[]⟩
        "SUI-USDT" Action.BUY 100).2.2.filter isSubmitClose =
      [ExCall.submitClose "SUI-USDT" Action.SELL "BOTH" 2] ∧
    (execute_trade 50 ⟨some 5, some [2], Mode.ONE_WAY, true, true⟩ ⟨[]⟩
        "SUI-USDT" Action.BUY 100).2.2.filter isSubmitOpen =
      [ExCall.submitOpen "SUI-USDT" Action.BUY "BOTH" 30] := by
  have hpos : get_current_position ⟨some 5, some [2], Mode.ONE_WAY, true, true⟩ =
      some (Side.LONG, 2) := by
    show firstPosition [2] = some (Side.LONG, 2)
    rw [firstPosition.eq_def]
    norm_num
  norm_num [execute_trade, can_trade, hpos, need_to_close, close_position,
    open_position, computeQuantity, pyRound4, roundHalfEven, positionSideForOpen,
    positionSideForClose, List.lookup, set_leverage, isSubmitClose, isSubmitOpen]

/-- C3 amended: when the existing position's side already equals the
signalled direction, `execute_trade` does NOT no-op: it submits a close
order for the existing position and then (close accepted, price readable)
the open order for the same direction — the position is closed and
reopened, not left untouched. -/
theorem same_direction_closes_and_reopens (bal : ℚ) (ex : Exchange) (s : TrackerState)
    (sym : String) (a : Action) (now : ℚ) (side : Side) (q p : ℚ)
    (hgate : can_trade s sym now = true)
    (hpos : get_current_position ex = some (side, q))
    (hsame : sameDirection a side)
    (hclose : ex.closeAccepted = true)
    (hp : ex.price = some p) (h0 : p ≠ 0) :
    (execute_trade bal ex s sym a now).2.2.filter isSubmitClose =
      [ExCall.submitClose sym (if side = Side.LONG then Action.SELL else Action.BUY)
        (positionSideForClose ex.mode side) q] ∧
    (execute_trade bal ex s sym a now).2.2.filter isSubmitOpen =
      [ExCall.submitOpen sym a (positionSideForOpen ex.mode a) (computeQuantity bal p)] := by
  have hc : ¬ can_trade s sym now = false := by simp [hgate]
  by_cases ho : ex.openAccepted <;>
    simp [execute_trade, if_neg hc, hpos, need_to_close_always, close_position,
      hclose, open_position, hp, h0, ho, set_leverage, isSubmitClose, isSubmitOpen]

/-- Witness for the amended C3: LONG 2, BUY signal — one close order
(SELL 2) and one open order (BUY 30) are submitted. -/
theorem same_direction_closes_and_reopens_witness :
    sameDirection Action.BUY Side.LONG ∧
    (execute_trade 50 ⟨some 5, some [2], Mode.ONE_WAY, true, true⟩ ⟨[]⟩
        "XRP-USDT" Action.BUY 100).2.2.filter isSubmitClose =
      [ExCall.submitClose "XRP-USDT" Action.SELL
        (positionSideForClose Mode.ONE_WAY Side.LONG) 2] ∧
    (execute_trade 50 ⟨some 5, some [2], Mode.ONE_WAY, true, true⟩ ⟨[]⟩
        "XRP-USDT" Action.BUY 100).2.2.filter isSubmitOpen =
      [ExCall.submitOpen "XRP-USDT" Action.BUY
        (positionSideForOpen Mode.ONE_WAY Action.BUY) (computeQuantity 50 5)] := by
  have hgate : can_trade ⟨[]⟩ "XRP-USDT" 100 = true := by
    norm_num [can_trade, List.lookup]
  have hpos : get_current_position ⟨some 5, some [2], Mode.ONE_WAY, true, true⟩ =
      some (Side.LONG, 2) := by
    show firstPosition [2] = some (Side.LONG, 2)
    rw [firstPosition.eq_def]
    norm_num
  have h := same_direction_closes_and_reopens 50
    ⟨some 5, some [2], Mode.ONE_WAY, true, true⟩ ⟨[]⟩ "XRP-USDT" Action.BUY 100
    Side.LONG 2 5 hgate hpos (Or.inl ⟨rfl, rfl⟩) rfl rfl (by norm_num)
  refine ⟨Or.inl ⟨rfl, rfl⟩, ?_, h.2⟩
  simpa using h.1

/-- C4 counterexample: the account is SHORT 2 and this exchange state
reports SHORT 2 on *every* positions query, so closure could never be
verified by polling.  The claim says the reconciler polls `GetPosition`
after the close until the closed side reports zero and aborts otherwise;
instead the whole attempt reads the position exactly once (before the
close), submits the open order regardless, and returns `success`. -/
theorem no_close_verification_cex :
    ((execute_trade 50 ⟨some 5, some [-2], Mode.ONE_WAY, true, true⟩ ⟨[]⟩
        "BTC-USDT" Action.BUY 100).2.2.filter isGetPositions).length = 1 ∧
    (execute_trade 50 ⟨some 5, some [-2], Mode.ONE_WAY, true, true⟩ ⟨[]⟩
        "BTC-USDT" Action.BUY 100).2.2.filter isSubmitOpen =
      [ExCall.submitOpen "BTC-USDT" Action.BUY "BOTH" 30] ∧
    (execute_trade 50 ⟨some 5, some [-2], Mode.ONE_WAY, true, true⟩ ⟨[]⟩
        "BTC-USDT" Action.BUY 100).1 = TradeStatus.success := by
  have hpos : get_current_position ⟨some 5, some [-2], Mode.ONE_WAY, true, true⟩ =
      some (Side.SHORT, 2) := by
    show firstPosition [-2] = some (Side.SHORT, 2)
    rw [firstPosition.eq_def]
    norm_num
  norm_num [execute_trade, can_trade, hpos, need_to_close, close_position,
    open_position, computeQuantity, pyRound4, roundHalfEven, positionSideForOpen,
    positionSideForClose, List.lookup, set_leverage, isGetPositions, isSubmitOpen]

/-- C4 amended: after a successful close-order submission `execute_trade`
waits a fixed delay and submits the open order unconditionally; it never
re-reads the position — the whole attempt contains exactly one positions
query (the initial read), and the open order is submitted whenever the
price is readable and non-zero, without any close verification. -/
theorem open_after_close_without_verification (bal : ℚ) (ex : Exchange)
    (s : TrackerState) (sym : String) (a : Action) (now : ℚ) (side : Side) (q p : ℚ)
    (hgate : can_trade s sym now = true)
    (hpos : get_current_position ex = some (side, q))
    (hconf : conflicts a side)
    (hclose : ex.closeAccepted = true)
    (hp : ex.price = some p) (h0 : p ≠ 0) :
    ((execute_trade bal ex s sym a now).2.2.filter isGetPositions).length = 1 ∧
    (execute_trade bal ex s sym a now).2.2.filter isSubmitOpen =
      [ExCall.submitOpen sym a (positionSideForOpen ex.mode a) (computeQuantity bal p)] := by
  have hc : ¬ can_trade s sym now = false := by simp [hgate]
  by_cases ho : ex.openAccepted <;>
    simp [execute_trade, if_neg hc, hpos, need_to_close_always, close_position,
      hclose, open_position, hp, h0, ho, set_leverage, isGetPositions, isSubmitOpen]

/-- Witness for the amended C4: SHORT 2, BUY signal, close accepted — one
positions query in the whole trace and the open order is submitted. -/
theorem open_after_close_without_verification_witness :
    conflicts Action.BUY Side.SHORT ∧
    ((execute_trade 50 ⟨some 5, some [-2], Mode.ONE_WAY, true, true⟩ ⟨[]⟩
        "DOGE-USDT" Action.BUY 100).2.2.filter isGetPositions).length = 1 ∧
    (execute_trade 50 ⟨some 5, some [-2], Mode.ONE_WAY, true, true⟩ ⟨[]⟩
        "DOGE-USDT" Action.BUY 100).2.2.filter isSubmitOpen =
      [ExCall.submitOpen "DOGE-USDT" Action.BUY
        (positionSideForOpen Mode.ONE_WAY Action.BUY) (computeQuantity 50 5)] := by
  have hgate : can_trade ⟨[]⟩ "DOGE-USDT" 100 = true := by
    norm_num [can_trade, List.lookup]
  have hpos : get_current_position ⟨some 5, some [-2], Mode.ONE_WAY, true, true⟩ =
      some (Side.SHORT, 2) := by
    show firstPosition [-2] = some (Side.SHORT, 2)
    rw [firstPosition.eq_def]
    norm_num
  have h := open_after_close_without_verification 50
    ⟨some 5, some [-2], Mode.ONE_WAY, true, true⟩ ⟨[]⟩ "DOGE-USDT" Action.BUY 100
    Side.SHORT 2 5 hgate hpos (Or.inl ⟨rfl, rfl⟩) rfl rfl (by norm_num)
  exact ⟨Or.inl ⟨rfl, rfl⟩, h.1, h.2⟩

/-! ### Sizing theorems (C6, C7) -/

/-- Off exact ties at the rounding precision, Python's round-half-even and
the spec's round-half-down agree. -/
theorem roundHalfEven_eq_roundHalfDown (x : ℚ) (h : Int.fract x ≠ 1/2) :
    roundHalfEven x = roundHalfDown x := by
  have hf : x - ⌊x⌋ ≠ 1/2 := by rw [← Int.self_sub_floor] at h; exact h
  unfold roundHalfEven roundHalfDown
  rcases lt_trichotomy (x - ⌊x⌋) (1/2 : ℚ) with hlt | heq | hgt
  · rw [if_pos hlt, if_neg (not_lt.mpr hlt.le)]
  · exact absurd heq hf
  · rw [if_neg (not_lt.mpr hgt.le), if_pos hgt, if_pos hgt]

/-- C6 counterexample: at budget 10 and price 600000/7 the exact quantity is
0.00035, a tie at 4 decimals.  The claim's round-half-down gives 0.0003, but
`open_position` submits 0.0004 (Python `round` rounds the tie to even) — so
the quantity is not "rounded half down". -/
theorem rounding_not_half_down_cex :
    computeQuantity 10 (600000/7) = 4/10000 ∧
    ComputeQuantitySpec 10 3 (600000/7) = 3/10000 ∧
    (4 : ℚ)/10000 ≠ 3/10000 ∧
    (open_position 10 ⟨some (600000/7), some [], Mode.ONE_WAY, true, true⟩ ⟨[]⟩
        "BTC-USDT" Action.BUY 100).2.2.filter isSubmitOpen =
      [ExCall.submitOpen "BTC-USDT" Action.BUY "BOTH" (4/10000)] := by
  norm_num [computeQuantity, ComputeQuantitySpec, pyRound4, roundHalfEven,
    roundHalfDown, open_position, positionSideForOpen, isSubmitOpen]

/-- C6 amended: the order quantity is `(TRADE_BALANCE × 3) / price` rounded
to 4 decimal places with Python's round (half to even); away from exact
ties this agrees with the spec's round-half-down, and the spec's instance
`ComputeQuantity(budget=10, leverage=3, price=5) = 6` does hold. -/
theorem quantity_rounds_half_even (bal p : ℚ)
    (hne : Int.fract (bal * 3 / p * 10000) ≠ 1/2) :
    computeQuantity bal p = ComputeQuantitySpec bal 3 p ∧
    computeQuantity 10 5 = 6 := by
  constructor
  · unfold computeQuantity ComputeQuantitySpec pyRound4
    rw [roundHalfEven_eq_roundHalfDown _ hne]
  · norm_num [computeQuantity, pyRound4, roundHalfEven]

/-- Witness for the amended C6 at budget 10, price 5: no tie, the code's
quantity equals the spec's and is 6. -/
theorem quantity_rounds_half_even_witness :
    Int.fract ((10 : ℚ) * 3 / 5 * 10000) ≠ 1/2 ∧
    computeQuantity 10 5 = ComputeQuantitySpec 10 3 5 ∧
    computeQuantity 10 5 = 6 := by
  have hne : Int.fract ((10 : ℚ) * 3 / 5 * 10000) ≠ 1/2 := by
    norm_num [Int.fract]
  have h := quantity_rounds_half_even 10 5 hne
  exact ⟨hne, h.1, h.2⟩

/-- C7 counterexample: the claim says sizing fails with `InvalidPrice`
whenever price ≤ 0 (no order submitted) and with `BelowMinimum` when the
rounded quantity is 0.  But at price −5 `open_position` submits an order of
quantity −6 and reports success, and at price 1000000 it submits an order
of quantity 0: only `price == 0` (Python falsiness) and a failed fetch are
rejected, and there are no typed errors at all (a bare `False`). -/
theorem sizing_guards_missing_cex :
    (open_position 10 ⟨some (-5), some [], Mode.ONE_WAY, true, true⟩ ⟨[]⟩
        "BTC-USDT" Action.BUY 100).1 = true ∧
    (open_position 10 ⟨some (-5), some [], Mode.ONE_WAY, true, true⟩ ⟨[]⟩
        "BTC-USDT" Action.BUY 100).2.2.filter isSubmitOpen =
      [ExCall.submitOpen "BTC-USDT" Action.BUY "BOTH" (-6)] ∧
    (open_position 10 ⟨some 1000000, some [], Mode.ONE_WAY, true, true⟩ ⟨[]⟩
        "BTC-USDT" Action.BUY 100).2.2.filter isSubmitOpen =
      [ExCall.submitOpen "BTC-USDT" Action.BUY "BOTH" 0] := by
  norm_num [open_position, computeQuantity, pyRound4, roundHalfEven,
    positionSideForOpen, isSubmitOpen]

/-- C7 amended: `open_position` aborts with no order exactly for a failed
price fetch or a price of 0 (`if not current_price`); the failure is an
untyped `False` (the tracker is untouched and nothing is submitted).
Negative prices and zero rounded quantities are NOT rejected. -/
theorem open_aborts_only_on_none_or_zero_price (bal : ℚ) (ex : Exchange)
    (s : TrackerState) (sym : String) (a : Action) (now : ℚ)
    (h : ex.price = none ∨ ex.price = some 0) :
    (open_position bal ex s sym a now).1 = false ∧
    (open_position bal ex s sym a now).2.1 = s ∧
    (open_position bal ex s sym a now).2.2.filter isSubmitOpen = [] := by
  rcases h with h | h <;> simp [open_position, h, isSubmitOpen]

/-- Witness for the amended C7 at price 0: `open_position` returns `False`,
leaves the tracker unchanged and submits nothing. -/
theorem open_aborts_only_on_none_or_zero_price_witness :
    (open_position 50 ⟨some 0, some [], Mode.ONE_WAY, true, true⟩ ⟨[]⟩
        "BTC-USDT" Action.BUY 100).1 = false ∧
    (open_position 50 ⟨some 0, some [], Mode.ONE_WAY, true, true⟩ ⟨[]⟩
        "BTC-USDT" Action.BUY 100).2.1 = (⟨[]⟩ : TrackerState) ∧
    (open_position 50 ⟨some 0, some [], Mode.ONE_WAY, true, true⟩ ⟨[]⟩
        "BTC-USDT" Action.BUY 100).2.2.filter isSubmitOpen = [] :=
  open_aborts_only_on_none_or_zero_price 50 ⟨some 0, some [], Mode.ONE_WAY, true, true⟩
    ⟨[]⟩ "BTC-USDT" Action.BUY 100 (Or.inr rfl)

/-! ### Concurrency gate (C8) -/

/-- Passing the cooldown gate, an attempt never ends skipped and always
performs exchange calls (at least the leverage call and the position
read). -/
theorem execute_trade_not_skipped (bal : ℚ) (ex : Exchange) (s : TrackerState)
    (sym : String) (a : Action) (now : ℚ) (h : can_trade s sym now = true) :
    (execute_trade bal ex s sym a now).1 ≠ TradeStatus.skipped_cooldown ∧
    (execute_trade bal ex s sym a now).2.2 ≠ [] := by
  have hc : ¬ can_trade s sym now = false := by simp [h]
  rcases hgp : get_current_position ex with _ | ⟨side, qty⟩
  · simp only [execute_trade, if_neg hc, hgp]
    constructor
    · split <;> simp
    · simp [set_leverage]
  · simp only [execute_trade, if_neg hc, hgp, need_to_close_always, if_pos]
    by_cases hcl : (close_position ex sym side qty).1 = true
    · simp only [hcl, if_pos]
      constructor
      · split <;> simp
      · simp [set_leverage]
    · simp only [hcl]
      constructor
      · simp [hcl]
      · simp [hcl, set_leverage]

/-- C8 (corrected): the program has no per-instrument execution lock — the
`TradeTracker` mutex only guards individual dict reads/writes, and the
cooldown check `can_trade` mutates nothing (the tracker is only written by
`mark_trade` when an open order later succeeds).  So in any concurrent
schedule where both calls for the same symbol run their cooldown check
before either open order completes, both see the same tracker state `s`;
this theorem shows that then both proceed past the gate (neither is
skipped) and both issue exchange calls — their close/open sequences are
not mutually excluded. -/
theorem cooldown_gate_admits_both_concurrent_calls (bal1 bal2 : ℚ)
    (ex1 ex2 : Exchange) (s : TrackerState) (sym : String) (a1 a2 : Action)
    (t1 t2 : ℚ) (h1 : can_trade s sym t1 = true) (h2 : can_trade s sym t2 = true) :
    ((execute_trade bal1 ex1 s sym a1 t1).1 ≠ TradeStatus.skipped_cooldown ∧
      (execute_trade bal1 ex1 s sym a1 t1).2.2 ≠ []) ∧
    ((execute_trade bal2 ex2 s sym a2 t2).1 ≠ TradeStatus.skipped_cooldown ∧
      (execute_trade bal2 ex2 s sym a2 t2).2.2 ≠ []) :=
  ⟨execute_trade_not_skipped bal1 ex1 s sym a1 t1 h1,
    execute_trade_not_skipped bal2 ex2 s sym a2 t2 h2⟩

/-- C8 counterexample: a BUY and a SELL attempt for the same symbol, both
from the fresh tracker state (the state both threads observe when both
cooldown checks precede either `mark_trade`): neither is skipped, and both
submit an open order — so it is false that at most one `Reconcile`
execution proceeds past the admission gate at a time. -/
theorem no_mutual_exclusion_cex :
    (execute_trade 50 ⟨some 5, some [], Mode.ONE_WAY, true, true⟩ ⟨[]⟩
        "BTC-USDT" Action.BUY 100).1 ≠ TradeStatus.skipped_cooldown ∧
    (execute_trade 50 ⟨some 5, some [], Mode.ONE_WAY, true, true⟩ ⟨[]⟩
        "BTC-USDT" Action.SELL 100).1 ≠ TradeStatus.skipped_cooldown ∧
    (execute_trade 50 ⟨some 5, some [], Mode.ONE_WAY, true, true⟩ ⟨[]⟩
        "BTC-USDT" Action.BUY 100).2.2.filter isSubmitOpen ≠ [] ∧
    (execute_trade 50 ⟨some 5, some [], Mode.ONE_WAY, true, true⟩ ⟨[]⟩
        "BTC-USDT" Action.SELL 100).2.2.filter isSubmitOpen ≠ [] := by
  norm_num [execute_trade, can_trade, get_current_position, firstPosition,
    open_position, computeQuantity, pyRound4, roundHalfEven, positionSideForOpen,
    List.lookup, set_leverage, isSubmitOpen]
  decide

/-- Witness for the corrected C8 at the fresh tracker state and t₁ = t₂ =
100: both the BUY and the SELL attempt pass the gate. -/
theorem cooldown_gate_admits_both_concurrent_calls_witness :
    can_trade ⟨[]⟩ "ETH-USDT" 100 = true ∧
    (execute_trade 50 ⟨some 5, some [], Mode.ONE_WAY, true, true⟩ ⟨[]⟩
        "ETH-USDT" Action.BUY 100).1 ≠ TradeStatus.skipped_cooldown ∧
    (execute_trade 50 ⟨some 5, some [], Mode.ONE_WAY, true, true⟩ ⟨[]⟩
        "ETH-USDT" Action.SELL 100).1 ≠ TradeStatus.skipped_cooldown := by
  have hgate : can_trade ⟨[]⟩ "ETH-USDT" 100 = true := by
    norm_num [can_trade, List.lookup]
  have h := cooldown_gate_admits_both_concurrent_calls 50 50
    ⟨some 5, some [], Mode.ONE_WAY, true, true⟩ ⟨some 5, some [], Mode.ONE_WAY, true, true⟩
    ⟨[]⟩ "ETH-USDT" Action.BUY Action.SELL 100 100 hgate hgate
  exact ⟨hgate, h.1.1, h.2.1⟩

end Automation
